import Mathlib

/-!
Verification development for the Amazon KDP scraper (`src/main.py`).

The request engine (`_make_request` and its helpers on `AmazonKDPScraper`) is
embedded as a pure state machine.  The transport collaborator
(`self.client.get`) is a function from the attempt index to an outcome (a
classified response, or a raised transport exception); the side effects of
the Python code (sleeps, session resets) are recorded as symbolic events in a
trace.  The numeric delay computations (`_adaptive_delay_strategy`,
`_intelligent_backoff`, the `Retry-After` handling) are embedded separately
as pure rational-valued functions of their inputs and the RNG draws, one unit
draw `r ∈ [0,1]` standing for one `random.uniform(lo, hi)` call via
`uniform lo hi r = lo + r * (hi - lo)`.
-/

namespace KDP

/-- Session-lifetime state owned by `AmazonKDPScraper`: the fields
`_session_cookies`, `_last_error_code`, `_consecutive_failures`,
`_last_success_time` set in `__init__`, plus a flag recording whether the
underlying httpx client has been closed (`client.aclose()`). -/
structure SessionState where
  session_cookies : List (String × String)
  last_error_code : Option Nat
  consecutive_failures : Nat
  last_success_time : Option Nat
  client_closed : Bool
deriving Repr, DecidableEq

/-- One classified HTTP response, as `_make_request` observes it: the status
code, the verdict of `_is_captcha_page` on it, the optional `Retry-After`
header, and the response cookies. -/
structure Resp where
  status : Nat
  is_captcha : Bool
  retry_after : Option String
  cookies : List (String × String)
deriving Repr, DecidableEq

/-- Outcome of one `self.client.get(...)` call: a response, or a raised
transport exception (caught by the `except Exception` clause). -/
inductive Outcome where
  | exn : Outcome
  | resp (r : Resp) : Outcome
deriving Repr, DecidableEq

/-- Symbolic record of one side-effecting action of `_make_request`:
the unconditional human-pacing sleep, an `_adaptive_delay_strategy` call
(with its `attempt` and `error_code` arguments), the `Retry-After` sleep
(with the parsed header value), a `_handle_captcha_scenario` wait (with the
encounter index), an `_intelligent_backoff` sleep (with the failure count it
was called with), and a `_reset_session_strategy` call. -/
inductive Event where
  | human_delay (attempt : Nat) : Event
  | adaptive_delay (attempt : Nat) (error_code : Option Nat) : Event
  | retry_after_sleep (secs : Nat) : Event
  | captcha_wait (idx : Nat) : Event
  | backoff_wait (consecutive_failures : Nat) : Event
  | session_reset : Event
deriving Repr, DecidableEq

/-- Python `d[k] = v` on a dict rendered as an association list: replaces the
value at an existing key in place, else appends the new binding. -/
def assoc_set {α : Type} (d : List (String × α)) (k : String) (v : α) :
    List (String × α) :=
  match d with
  | [] => [(k, v)]
  | (k', v') :: rest =>
      if k' = k then (k, v) :: rest else (k', v') :: assoc_set rest k v

/-- Python `old.update(new)` on dicts: bindings of `new` override `old`. -/
def merge_cookies (old new : List (String × String)) : List (String × String) :=
  new.foldl (fun acc kv => assoc_set acc kv.1 kv.2) old

/-- Decimal digit value of a character: the Unicode `Numeric_Type=Decimal`
(general category `Nd`) ranges of Unicode 15.0, which CPython's `str` methods
and `int()` use.  Every `Nd` range is a contiguous run of ten code points
carrying the values 0-9 (the mathematical alphanumeric digits at U+1D7CE are
five consecutive such runs). -/
def py_char_decimal_val (c : Char) : Option Nat :=
  let n := c.toNat
  let bases : List Nat :=
    [0x30, 0x660, 0x6F0, 0x7C0, 0x966, 0x9E6, 0xA66, 0xAE6, 0xB66, 0xBE6,
     0xC66, 0xCE6, 0xD66, 0xDE6, 0xE50, 0xED0, 0xF20, 0x1040, 0x1090, 0x17E0,
     0x1810, 0x1946, 0x19D0, 0x1A80, 0x1A90, 0x1B50, 0x1BB0, 0x1C40, 0x1C50,
     0xA620, 0xA8D0, 0xA900, 0xA9D0, 0xA9F0, 0xAA50, 0xABF0, 0xFF10,
     0x104A0, 0x10D30, 0x11066, 0x110F0, 0x11136, 0x111D0, 0x112F0, 0x11450,
     0x114D0, 0x11650, 0x116C0, 0x11730, 0x118E0, 0x11950, 0x11C50, 0x11D50,
     0x11DA0, 0x11F50, 0x16A60, 0x16AC0, 0x16B50,
     0x1D7CE, 0x1D7D8, 0x1D7E2, 0x1D7EC, 0x1D7F6,
     0x1E140, 0x1E2F0, 0x1E4F0, 0x1E950, 0x1FBF0]
  match bases.find? (fun b => b ≤ n && n < b + 10) with
  | some b => some (n - b)
  | Option.none => Option.none

/-- Characters with `Numeric_Type=Digit` (Unicode 15.0): `isdigit()` accepts
them but they are not decimal digits, so `int()` raises `ValueError` on them —
superscripts and subscripts (e.g. U+00B2 `²`), circled, parenthesized and
full-stop digits, Ethiopic, New Tai Lue, Kharoshthi, Rumi and Brahmi digits. -/
def py_char_digit_nondec (c : Char) : Bool :=
  let n := c.toNat
  n == 0xB2 || n == 0xB3 || n == 0xB9 ||
  (0x1369 ≤ n && n ≤ 0x1371) || n == 0x19DA ||
  n == 0x2070 || (0x2074 ≤ n && n ≤ 0x2079) ||
  (0x2080 ≤ n && n ≤ 0x2089) ||
  (0x2460 ≤ n && n ≤ 0x2468) || (0x2474 ≤ n && n ≤ 0x247C) ||
  (0x2488 ≤ n && n ≤ 0x2490) || n == 0x24EA ||
  (0x24F5 ≤ n && n ≤ 0x24FD) || n == 0x24FF ||
  (0x2776 ≤ n && n ≤ 0x277E) || (0x2780 ≤ n && n ≤ 0x2788) ||
  (0x278A ≤ n && n ≤ 0x2792) ||
  (0x10A40 ≤ n && n ≤ 0x10A43) || (0x10E60 ≤ n && n ≤ 0x10E68) ||
  (0x11052 ≤ n && n ≤ 0x1105A) || (0x1F100 ≤ n && n ≤ 0x1F10A)

/-- Python `c.isdigit()` per character: `Numeric_Type=Decimal` or
`Numeric_Type=Digit`. -/
def py_char_isdigit (c : Char) : Bool :=
  (py_char_decimal_val c).isSome || py_char_digit_nondec c

/-- Python `s.isdigit()`: non-empty and every character a digit (decimal or
digit-only).  `retry_after and retry_after.isdigit()` in the source is
equivalent to this test, since the empty string is falsy and also fails
`isdigit`. -/
def py_isdigit (s : String) : Bool :=
  !s.data.isEmpty && s.data.all py_char_isdigit

/-- Python `int(s)` at the `isdigit`-guarded call site (line 265): succeeds
iff every character is a decimal digit — then the base-10 value over the
per-character decimal values (mixed scripts allowed, as in CPython) — and
raises `ValueError` (`Option.none` here) otherwise, e.g. on the
digit-but-not-decimal `"²"`.  Signs, spaces and underscores, which `int()`
would also accept, cannot pass `isdigit` and so are out of scope. -/
def py_int_parse (s : String) : Option Nat :=
  if !s.data.isEmpty && s.data.all (fun c => (py_char_decimal_val c).isSome) then
    some (s.data.foldl (fun n c => n * 10 + (py_char_decimal_val c).getD 0) 0)
  else Option.none

/-- The `Retry-After` values on which line 265's `int()` raises `ValueError`
after `isdigit()` passed: non-empty strings of digit characters at least one
of which is not a decimal digit. -/
def retry_after_value_error (rah : Option String) : Bool :=
  match rah with
  | some ra => py_isdigit ra && (py_int_parse ra).isNone
  | Option.none => false

/-- The `_setup_http_client` method: its body is `pass` (the comment in the
source says configuration happens in `main()`), so it changes nothing. -/
def setup_http_client (s : SessionState) : SessionState := s

/-- The `_reset_session_strategy` method: clears `_session_cookies`, clears
`_last_error_code`, closes the client (`await self.client.aclose()`), then
calls `_setup_http_client` (a no-op) and logs that warm-up is skipped.
Note that `_consecutive_failures` is not touched. -/
def reset_session_strategy (s : SessionState) : SessionState :=
  setup_http_client
    { s with session_cookies := [], last_error_code := none, client_closed := true }

/-- State effect and events of one `_intelligent_backoff(consecutive_failures)`
call: tiers `≤ 2` / `≤ 5` / else, with a session reset exactly when the count
is `3` inside the middle tier and always in the top tier; the sleep itself is
recorded as a `backoff_wait` event (its numeric value is
`intelligent_backoff_value` below). -/
def intelligent_backoff_step (consecutive_failures : Nat) (s : SessionState) :
    SessionState × List Event :=
  if consecutive_failures ≤ 2 then
    (s, [Event.backoff_wait consecutive_failures])
  else if consecutive_failures ≤ 5 then
    if consecutive_failures = 3 then
      (reset_session_strategy s,
        [Event.session_reset, Event.backoff_wait consecutive_failures])
    else
      (s, [Event.backoff_wait consecutive_failures])
  else
    (reset_session_strategy s,
      [Event.session_reset, Event.backoff_wait consecutive_failures])

/-- Events emitted before the HTTP call of attempt `i`: the
`_adaptive_delay_strategy(attempt, self._last_error_code)` call guarded by
`attempt > 0`, then the unconditional human-pacing sleep. -/
def pre_events (i : Nat) (last_error_code : Option Nat) : List Event :=
  (if 0 < i then [Event.adaptive_delay i last_error_code] else []) ++
    [Event.human_delay i]

/-- Result of processing one loop iteration of `_make_request`: either the
function returns (`done`), or the iteration ends in `continue` (`next`) with
the updated CAPTCHA counter and state. -/
inductive StepOut where
  | done (result : Option Resp) (s : SessionState) (events : List Event) : StepOut
  | next (captcha_attempts : Nat) (s : SessionState) (events : List Event) : StepOut
deriving Repr, DecidableEq

/-- One iteration of the `for attempt in range(max_retries)` loop of
`_make_request`, for attempt index `i`, current CAPTCHA counter and session
state, on the transport outcome `o`.  Mirrors the source line by line:
pre-attempt delays; `self._last_error_code = response.status_code`; the
CAPTCHA check; then the `elif` chain on the status code; the
`except Exception` branch corresponds to `Outcome.exn`. -/
def attempt_step (max_retries i captcha_attempts : Nat) (s : SessionState)
    (o : Outcome) (now : Nat) : StepOut :=
  let pre := pre_events i s.last_error_code
  match o with
  | .exn =>
      let s1 := { s with consecutive_failures := s.consecutive_failures + 1 }
      if i < max_retries - 1 then
        let evs := pre ++ [Event.adaptive_delay i none]
        if s1.consecutive_failures ≥ 3 then
          let b := intelligent_backoff_step s1.consecutive_failures s1
          .next captcha_attempts b.1 (evs ++ b.2)
        else .next captcha_attempts s1 evs
      else .done none s1 pre
  | .resp r =>
      let s0 := { s with last_error_code := some r.status }
      if r.is_captcha then
        let ca := captcha_attempts + 1
        let evs := pre ++ [Event.captcha_wait (ca - 1)]
        -- `_handle_captcha_scenario(response, captcha_attempts - 1)` sleeps and
        -- returns `attempt < 3`, i.e. `ca - 1 < 3`.
        if ca - 1 < 3 ∧ i < max_retries - 1 then
          .next ca
            { s0 with session_cookies := [],
                      consecutive_failures := s0.consecutive_failures + 1 } evs
        else
          .done none
            { s0 with consecutive_failures := s0.consecutive_failures + 1 } evs
      else if r.status = 200 then
        .done (some r)
          { s0 with last_error_code := none,
                    consecutive_failures := 0,
                    last_success_time := some now,
                    session_cookies :=
                      if r.cookies.isEmpty then s0.session_cookies
                      else merge_cookies s0.session_cookies r.cookies } pre
      else if r.status = 503 then
        let s1 := { s0 with consecutive_failures := s0.consecutive_failures + 1 }
        if i < max_retries - 1 then
          let evs := pre ++ [Event.adaptive_delay i (some 503)]
          if s1.consecutive_failures ≥ 3 then
            let b := intelligent_backoff_step s1.consecutive_failures s1
            .next captcha_attempts b.1 (evs ++ b.2)
          else .next captcha_attempts s1 evs
        else .next captcha_attempts s1 pre
      else if r.status = 429 then
        let s1 := { s0 with consecutive_failures := s0.consecutive_failures + 1 }
        match r.retry_after with
        | some ra =>
            if py_isdigit ra then
              match py_int_parse ra with
              | some n =>
                  .next captcha_attempts s1 (pre ++ [Event.retry_after_sleep n])
              | Option.none =>
                  -- `int(retry_after)` raised `ValueError` (digit characters
                  -- that are not decimal digits): control falls to the
                  -- `except Exception` clause — a second increment, then the
                  -- error-code-`None` adaptive delay and backoff check when
                  -- attempts remain, else `return None`
                  let s2 :=
                    { s1 with consecutive_failures := s1.consecutive_failures + 1 }
                  if i < max_retries - 1 then
                    let evs := pre ++ [Event.adaptive_delay i none]
                    if s2.consecutive_failures ≥ 3 then
                      let b := intelligent_backoff_step s2.consecutive_failures s2
                      .next captcha_attempts b.1 (evs ++ b.2)
                    else .next captcha_attempts s2 evs
                  else .done none s2 pre
            else
              .next captcha_attempts s1 (pre ++ [Event.adaptive_delay i (some 429)])
        | Option.none =>
            .next captcha_attempts s1 (pre ++ [Event.adaptive_delay i (some 429)])
      else if r.status = 403 then
        let s1 := { s0 with consecutive_failures := s0.consecutive_failures + 1 }
        if r.is_captcha then
          -- the inner 403 CAPTCHA check of the source; unreachable here because
          -- the top-level CAPTCHA check already routed `is_captcha` responses
          let ca := captcha_attempts + 1
          let evs := pre ++ [Event.captcha_wait (ca - 1)]
          if ca - 1 < 3 ∧ i < max_retries - 1 then
            .next ca { s1 with session_cookies := [] } evs
          else .done none s1 evs
        else if i < max_retries - 1 then
          let evs := pre ++ [Event.adaptive_delay i (some 403)]
          if s1.consecutive_failures ≥ 2 then
            let b := intelligent_backoff_step s1.consecutive_failures s1
            .next captcha_attempts b.1 (evs ++ b.2)
          else .next captcha_attempts s1 evs
        else .next captcha_attempts s1 pre
      else if r.status = 404 then
        .done none s0 pre
      else
        let s1 := { s0 with consecutive_failures := s0.consecutive_failures + 1 }
        if i < max_retries - 1 then
          .next captcha_attempts s1 (pre ++ [Event.adaptive_delay i none])
        else .next captcha_attempts s1 pre

/-- The retry loop of `_make_request`, with `fuel` remaining iterations.
The `fuel = 0` case is the code after the loop: one more failure increment,
a final `_intelligent_backoff` when the count reaches 5, and `return None`. -/
def make_request_go (url : String) (max_retries : Nat) (transport : Nat → Outcome)
    (now : Nat) :
    Nat → Nat → Nat → SessionState → List Event →
      Option Resp × SessionState × List Event
  | 0, _, _, s, tr =>
      let s1 := { s with consecutive_failures := s.consecutive_failures + 1 }
      if s1.consecutive_failures ≥ 5 then
        let b := intelligent_backoff_step s1.consecutive_failures s1
        (none, b.1, tr ++ b.2)
      else (none, s1, tr)
  | fuel + 1, i, ca, s, tr =>
      match attempt_step max_retries i ca s (transport i) now with
      | .done res s' evs => (res, s', tr ++ evs)
      | .next ca' s' evs =>
          make_request_go url max_retries transport now fuel (i + 1) ca' s' (tr ++ evs)

/-- The `_make_request(url, max_retries, skip_warmup)` method, as a function of
the initial session state and the transport collaborator.  Returns the Python
return value (`Optional[Response]`), the final session state, and the trace of
side-effecting actions.  The `skip_warmup` parameter is a parameter of the
source function and is kept here; its body never reads it. -/
def make_request (url : String) (max_retries : Nat) (skip_warmup : Bool)
    (s : SessionState) (transport : Nat → Outcome) (now : Nat) :
    Option Resp × SessionState × List Event :=
  make_request_go url max_retries transport now max_retries 0 0 s []

/-- Session state of the returned `StepOut`. -/
def step_state : StepOut → SessionState
  | .done _ s _ => s
  | .next _ s _ => s

/-- Consecutive-failure counter of the returned `StepOut`. -/
def step_cf (o : StepOut) : Nat := (step_state o).consecutive_failures

/-- Events of the returned `StepOut`. -/
def step_events : StepOut → List Event
  | .done _ _ evs => evs
  | .next _ _ evs => evs

/-! ## Numeric delay policies -/

/-- Python `random.uniform(lo, hi)` given a unit draw `r ∈ [0, 1]`. -/
def uniform (lo hi r : ℚ) : ℚ := lo + r * (hi - lo)

/-- The delay computed by `_adaptive_delay_strategy(attempt, error_code)`
before the 600 s cap: `base_delay = 2.0`, then `3^attempt`, `2^attempt`,
`4^attempt` or `2^attempt` depending on the error code, plus the per-code
uniform jitter (one draw `r`). -/
def adaptive_delay_raw (attempt : Nat) (error_code : Option Nat) (r : ℚ) : ℚ :=
  let base_delay : ℚ := 2
  if error_code = some 503 then base_delay * 3 ^ attempt + uniform 10 30 r
  else if error_code = some 429 then base_delay * 2 ^ attempt + uniform 15 45 r
  else if error_code = some 403 then base_delay * 4 ^ attempt + uniform 30 90 r
  else base_delay * 2 ^ attempt + uniform 5 15 r

/-- The delay `_adaptive_delay_strategy` actually sleeps:
`delay = min(delay, 600)`. -/
def adaptive_delay_value (attempt : Nat) (error_code : Option Nat) (r : ℚ) : ℚ :=
  min (adaptive_delay_raw attempt error_code r) 600

/-- The `_intelligent_backoff(consecutive_failures)` policy as a pure value:
the slept delay (from one uniform draw `r`) and whether
`_reset_session_strategy` is invoked. -/
def intelligent_backoff_value (consecutive_failures : Nat) (r : ℚ) : ℚ × Bool :=
  if consecutive_failures ≤ 2 then (uniform 5 15 r, false)
  else if consecutive_failures ≤ 5 then
    (uniform 30 90 r, consecutive_failures == 3)
  else (uniform 300 600 r, true)

/-- The wait computed for a numeric `Retry-After` header (line
`delay = int(retry_after) + random.uniform(5, 15)`). -/
def retry_after_delay (retry_after_val : Nat) (r : ℚ) : ℚ :=
  retry_after_val + uniform 5 15 r

/-! ## Python value model for `_scrape_book_details` / `_meets_criteria` -/

/-- Python runtime values, as far as the filtering path needs them: `None`,
booleans, ints, floats (as rationals, plus `float('inf')`), strings, lists
and dicts (association lists in insertion order). -/
inductive PyVal where
  | none : PyVal
  | bool (b : Bool) : PyVal
  | int (n : Int) : PyVal
  | rat (q : ℚ) : PyVal
  | inf : PyVal
  | str (s : String) : PyVal
  | list (xs : List PyVal) : PyVal
  | dict (entries : List (String × PyVal)) : PyVal

/-- Python exceptions the filtering path can raise. -/
inductive PyError where
  | typeError : PyError
  | attrError : PyError
deriving Repr, DecidableEq

/-- Python truthiness of the values above. -/
def truthy : PyVal → Bool
  | .none => false
  | .bool b => b
  | .int n => n != 0
  | .rat q => q != 0
  | .inf => true
  | .str s => !s.isEmpty
  | .list xs => !xs.isEmpty
  | .dict es => !es.isEmpty

/-- Python `a < b`.  Numbers (bools counting as ints, `float('inf')` as the
top float) and strings compare; a dict on either side is unorderable and
raises `TypeError`, as do the remaining mixed cases.  (Sequence ordering is
not modelled: no code path of this program compares two lists.) -/
def py_lt : PyVal → PyVal → Except PyError Bool
  | .int a, .int b => .ok (a < b)
  | .int a, .rat b => .ok ((a : ℚ) < b)
  | .rat a, .int b => .ok (a < (b : ℚ))
  | .rat a, .rat b => .ok (a < b)
  | .bool a, .int b => .ok ((if a then (1 : Int) else 0) < b)
  | .int a, .bool b => .ok (a < (if b then (1 : Int) else 0))
  | .bool a, .bool b => .ok ((if a then (1 : Int) else 0) < (if b then 1 else 0))
  | .bool a, .rat b => .ok ((if a then (1 : ℚ) else 0) < b)
  | .rat a, .bool b => .ok (a < (if b then (1 : ℚ) else 0))
  | .int _, .inf => .ok true
  | .rat _, .inf => .ok true
  | .bool _, .inf => .ok true
  | .inf, .int _ => .ok false
  | .inf, .rat _ => .ok false
  | .inf, .bool _ => .ok false
  | .inf, .inf => .ok false
  | .str a, .str b => .ok (a < b)
  | _, _ => .error .typeError

/-- Python `a <= b`, same domain as `py_lt`. -/
def py_le : PyVal → PyVal → Except PyError Bool
  | .int a, .int b => .ok (a ≤ b)
  | .int a, .rat b => .ok ((a : ℚ) ≤ b)
  | .rat a, .int b => .ok (a ≤ (b : ℚ))
  | .rat a, .rat b => .ok (a ≤ b)
  | .bool a, .int b => .ok ((if a then (1 : Int) else 0) ≤ b)
  | .int a, .bool b => .ok (a ≤ (if b then (1 : Int) else 0))
  | .bool a, .bool b => .ok ((if a then (1 : Int) else 0) ≤ (if b then 1 else 0))
  | .bool a, .rat b => .ok ((if a then (1 : ℚ) else 0) ≤ b)
  | .rat a, .bool b => .ok (a ≤ (if b then (1 : ℚ) else 0))
  | .int _, .inf => .ok true
  | .rat _, .inf => .ok true
  | .bool _, .inf => .ok true
  | .inf, .int _ => .ok false
  | .inf, .rat _ => .ok false
  | .inf, .bool _ => .ok false
  | .inf, .inf => .ok true
  | .str a, .str b => .ok (a ≤ b)
  | _, _ => .error .typeError

/-- Lookup in a Python dict rendered as an association list. -/
def assoc_find {α : Type} (d : List (String × α)) (k : String) : Option α :=
  match d with
  | [] => Option.none
  | (k', v) :: rest => if k' = k then some v else assoc_find rest k

/-- Python `d.get(k, default)` on a dict. -/
def py_get (d : List (String × PyVal)) (k : String) (default : PyVal) : PyVal :=
  (assoc_find d k).getD default

/-- Python `v.get(k, default)` on an arbitrary value: raises
`AttributeError` when `v` is not a dict. -/
def py_dict_get (v : PyVal) (k : String) (default : PyVal) :
    Except PyError PyVal :=
  match v with
  | .dict d => .ok (py_get d k default)
  | _ => .error .attrError

/-- Python `d[k1][k2] = v` where `d[k1]` is a dict (as everywhere this is
used in `_scrape_book_details`); a non-dict at `k1` is left unchanged (that
case is unreachable on the paths modelled here). -/
def py_set2 (d : List (String × PyVal)) (k1 k2 : String) (v : PyVal) :
    List (String × PyVal) :=
  match assoc_find d k1 with
  | some (.dict inner) => assoc_set d k1 (.dict (assoc_set inner k2 v))
  | _ => d

/-- Python `d[k].append(v)` where `d[k]` is a list, as in
`book_data['features'].append(feature_text)`. -/
def py_list_append (d : List (String × PyVal)) (k : String) (v : PyVal) :
    List (String × PyVal) :=
  match assoc_find d k with
  | some (.list xs) => assoc_set d k (.list (xs ++ [v]))
  | _ => d

/-- Python `d[k1][k2].append(v)` where `d[k1]` is a dict holding a list at
`k2`, as in `book_data['images']['thumbnails'].append(thumb_src)`. -/
def py_list_append2 (d : List (String × PyVal)) (k1 k2 : String) (v : PyVal) :
    List (String × PyVal) :=
  match assoc_find d k1 with
  | some (.dict inner) =>
      match assoc_find inner k2 with
      | some (.list xs) =>
          assoc_set d k1 (.dict (assoc_set inner k2 (.list (xs ++ [v]))))
      | _ => d
  | _ => d

/-- The `_meets_criteria(book_data)` method, with `self.config` passed
explicitly.  `book_data.get('rating') and book_data['rating'] < min_rating`
evaluates the comparison only when the rating value is truthy; likewise for
the chained price comparison `min_price <= book_data['price'] <= max_price`. -/
def meets_criteria (config book_data : List (String × PyVal)) :
    Except PyError Bool := do
  let min_rating := py_get config "minRating" (.int 0)
  let rating := py_get book_data "rating" .none
  let cond1 ← if truthy rating then py_lt rating min_rating else pure false
  if cond1 then
    return false
  let price_range := py_get config "priceRange" (.dict [])
  let price := py_get book_data "price" .none
  if truthy price then
    let min_price ← py_dict_get price_range "min" (.int 0)
    let max_price ← py_dict_get price_range "max" .inf
    let le1 ← py_le min_price price
    let in_range ← if le1 then py_le price max_price else pure false
    if !in_range then
      return false
  return true

/-- Outputs of the leaf extractors that `_scrape_book_details` calls on the
parsed page (`_extract_title`, `_extract_price`, ...): the HTML parsing
itself is an external collaborator, so its results are parameters. -/
structure ScrapeFields where
  url : String
  asin : PyVal
  title : String
  author : String
  description : String
  publication_date : String
  page_count : PyVal
  language : String
  isbn : String
  categories : List String
  image_primary : String
  old_price : PyVal
  old_rating : PyVal
  old_review_count : PyVal
  reviews : List PyVal

/-- Outputs of the page lookups inside `_extract_enhanced_details`:
feature-bullet texts, thumbnail `src` values, availability text, seller
name/id, and the last publisher/dimensions values its detail loop extracts. -/
structure EnhancedFields where
  features : List String
  thumbnails : List (Option String)
  availability_text : Option String
  seller : Option (String × Option String)
  publisher : Option String
  dimensions : Option String

/-- The `book_data` dict literal of `_scrape_book_details` (lines 358-400),
before the subsequent in-place updates. -/
def scrape_book_base (f : ScrapeFields) : List (String × PyVal) :=
  [("type", .str "book"),
   ("url", .str f.url),
   ("asin", f.asin),
   ("title", .str f.title),
   ("author", .str f.author),
   ("price", .dict [("value", .none), ("currency", .none)]),
   ("listPrice", .dict [("value", .none), ("currency", .none)]),
   ("rating", .dict [("stars", .none), ("count", .none)]),
   ("description", .str f.description),
   ("features", .list []),
   ("details", .dict
      [("publication_date", .str f.publication_date),
       ("page_count", f.page_count),
       ("language", .str f.language),
       ("isbn", .str f.isbn),
       ("publisher", .none),
       ("dimensions", .none)]),
   ("categories", .list (f.categories.map PyVal.str)),
   ("breadcrumbs", .none),
   ("images", .dict [("primary", .str f.image_primary), ("thumbnails", .list [])]),
   ("availability", .dict [("inStock", .none), ("stockText", .none)]),
   ("seller", .dict [("name", .none), ("id", .none)])]

/-- Python `' › '.join(book_data['categories'])` (the list holds strings on
every path of this program). -/
def py_join_categories : PyVal → String
  | .list xs =>
      String.intercalate " › "
        (xs.map fun v => match v with | .str s => s | _ => "")
  | _ => ""

/-- Substring test used for the `in`-operator on strings
(`'in stock' in avail_text.lower()`). -/
def str_has_substr (s t : String) : Bool :=
  (s.splitOn t).length != 1

/-- Membership of a thumbnail source in the current thumbnail list, as
Python `thumb_src not in book_data['images']['thumbnails']` computes it
(the list holds strings). -/
def thumb_mem (d : List (String × PyVal)) (src : String) : Bool :=
  match assoc_find d "images" with
  | some (.dict imgs) =>
      match assoc_find imgs "thumbnails" with
      | some (.list xs) =>
          xs.any fun v => match v with | .str s => s == src | _ => false
      | _ => false
  | _ => false

/-- Breadcrumb block of `_extract_enhanced_details`:
`if book_data['categories']: book_data['breadcrumbs'] = ' › '.join(...)`. -/
def enhanced_breadcrumbs (d : List (String × PyVal)) : List (String × PyVal) :=
  if truthy (py_get d "categories" .none) then
    assoc_set d "breadcrumbs"
      (.str (py_join_categories (py_get d "categories" .none)))
  else d

/-- Feature-bullet loop of `_extract_enhanced_details`: appends every item
text that is non-empty and longer than 10 characters. -/
def enhanced_features (features : List String) (d : List (String × PyVal)) :
    List (String × PyVal) :=
  features.foldl
    (fun d ft =>
      if !ft.isEmpty && ft.length > 10 then py_list_append d "features" (.str ft)
      else d) d

/-- Thumbnail loop of `_extract_enhanced_details`: appends each found `src`
that is non-empty and not already in the thumbnail list. -/
def enhanced_thumbnails (thumbs : List (Option String))
    (d : List (String × PyVal)) : List (String × PyVal) :=
  thumbs.foldl
    (fun d src? =>
      match src? with
      | Option.none => d
      | some src =>
          if !src.isEmpty && !thumb_mem d src then
            py_list_append2 d "images" "thumbnails" (.str src)
          else d) d

/-- Availability block of `_extract_enhanced_details`: stores the text and
the lowercase `'in stock' / 'available'` substring test. -/
def enhanced_availability (txt? : Option String) (d : List (String × PyVal)) :
    List (String × PyVal) :=
  match txt? with
  | Option.none => d
  | some txt =>
      py_set2 (py_set2 d "availability" "stockText" (.str txt))
        "availability" "inStock"
        (.bool (str_has_substr txt.toLower "in stock" ||
                str_has_substr txt.toLower "available"))

/-- Seller block of `_extract_enhanced_details`: the seller name when the
link is found, plus the id when the `seller=` regex matches. -/
def enhanced_seller (x : Option (String × Option String))
    (d : List (String × PyVal)) : List (String × PyVal) :=
  match x with
  | Option.none => d
  | some (nm, id?) =>
      match id? with
      | Option.none => py_set2 d "seller" "name" (.str nm)
      | some sid =>
          py_set2 (py_set2 d "seller" "name" (.str nm)) "seller" "id" (.str sid)

/-- Publisher update of the detail-bullet loop (last extracted value). -/
def enhanced_publisher (p? : Option String) (d : List (String × PyVal)) :
    List (String × PyVal) :=
  match p? with
  | Option.none => d
  | some p => py_set2 d "details" "publisher" (.str p)

/-- Dimensions update of the detail-bullet loop (last extracted value). -/
def enhanced_dimensions (dim? : Option String) (d : List (String × PyVal)) :
    List (String × PyVal) :=
  match dim? with
  | Option.none => d
  | some dim => py_set2 d "details" "dimensions" (.str dim)

/-- The `_extract_enhanced_details(soup, book_data)` method: its blocks in
source order. -/
def extract_enhanced_details (e : EnhancedFields) (d : List (String × PyVal)) :
    List (String × PyVal) :=
  enhanced_dimensions e.dimensions
    (enhanced_publisher e.publisher
      (enhanced_seller e.seller
        (enhanced_availability e.availability_text
          (enhanced_thumbnails e.thumbnails
            (enhanced_features e.features
              (enhanced_breadcrumbs d))))))

/-- Price update of `_scrape_book_details`:
`if old_price: book_data['price']['value'] = old_price;
book_data['price']['currency'] = '$'`. -/
def scrape_price_update (old_price : PyVal) (d : List (String × PyVal)) :
    List (String × PyVal) :=
  if truthy old_price then
    py_set2 (py_set2 d "price" "value" old_price) "price" "currency" (.str "$")
  else d

/-- Rating-stars update of `_scrape_book_details`. -/
def scrape_rating_update (old_rating : PyVal) (d : List (String × PyVal)) :
    List (String × PyVal) :=
  if truthy old_rating then py_set2 d "rating" "stars" old_rating else d

/-- Review-count update of `_scrape_book_details`. -/
def scrape_count_update (old_review_count : PyVal) (d : List (String × PyVal)) :
    List (String × PyVal) :=
  if truthy old_review_count then py_set2 d "rating" "count" old_review_count
  else d

/-- Reviews key added when `self.config.get('includeReviews', False)`. -/
def scrape_reviews_update (config : List (String × PyVal)) (reviews : List PyVal)
    (d : List (String × PyVal)) : List (String × PyVal) :=
  if truthy (py_get config "includeReviews" (.bool false)) then
    assoc_set d "reviews" (.list reviews)
  else d

/-- The dict a non-`None` `_scrape_book_details` call returns: the literal,
then the price / rating / review-count updates, `_extract_enhanced_details`,
and the optional `reviews` key, in source order. -/
def scrape_book_details_data (config : List (String × PyVal)) (f : ScrapeFields)
    (e : EnhancedFields) : List (String × PyVal) :=
  scrape_reviews_update config f.reviews
    (extract_enhanced_details e
      (scrape_count_update f.old_review_count
        (scrape_rating_update f.old_rating
          (scrape_price_update f.old_price (scrape_book_base f)))))

/-- The filtering loop of `search_books`: for each scraped result,
`if book_data and self._meets_criteria(book_data): books.append(book_data)`;
a raised exception aborts the whole call. -/
def collect_books (config : List (String × PyVal)) :
    List (Option (List (String × PyVal))) →
      Except PyError (List (List (String × PyVal)))
  | [] => .ok []
  | Option.none :: rest => collect_books config rest
  | some bd :: rest => do
      let keep ←
        if truthy (.dict bd) then meets_criteria config bd else pure false
      let tail ← collect_books config rest
      if keep then return bd :: tail else return tail

/-- The field shape `_scrape_book_details` guarantees: `rating` is the
two-entry dict `{'stars': ..., 'count': ...}` and `price` is the two-entry
dict `{'value': ..., 'currency': ...}`. -/
def book_shape (d : List (String × PyVal)) : Prop :=
  (∃ sv cv, assoc_find d "rating" =
      some (PyVal.dict [("stars", sv), ("count", cv)])) ∧
  (∃ pv pc, assoc_find d "price" =
      some (PyVal.dict [("value", pv), ("currency", pc)]))

/-! ## Shared concrete inputs -/

/-- A freshly constructed session (`__init__` field values). -/
def fresh_state : SessionState :=
  ⟨[], Option.none, 0, Option.none, false⟩

/-- A session that has already accumulated three consecutive failures. -/
def degraded_state : SessionState :=
  ⟨[("session-id", "abc")], some 403, 3, Option.none, false⟩

/-- A plain 503 response (not a CAPTCHA page, no `Retry-After`). -/
def resp503 : Resp := ⟨503, false, Option.none, []⟩

/-- A plain 200 response. -/
def resp200 : Resp := ⟨200, false, Option.none, []⟩

/-- A plain 404 response. -/
def resp404 : Resp := ⟨404, false, Option.none, []⟩

/-- Transport whose attempts answer 503, 503, then 200. -/
def transport_503_503_200 : Nat → Outcome :=
  fun i => if i < 2 then .resp resp503 else .resp resp200

/-- Transport that always answers 503. -/
def transport_always_503 : Nat → Outcome := fun _ => .resp resp503

/-- Number of `_adaptive_delay_strategy` sleeps computed with the 503
formula (error code 503) in a trace. -/
def count_503_delays (evs : List Event) : Nat :=
  evs.countP fun e =>
    match e with
    | Event.adaptive_delay _ c => c == some 503
    | _ => false

/-! ## Helper lemmas about the request engine -/

lemma ib_step_cf (cf : Nat) (s : SessionState) :
    ((intelligent_backoff_step cf s).1).consecutive_failures =
      s.consecutive_failures := by
  unfold intelligent_backoff_step reset_session_strategy setup_http_client
  split_ifs <;> rfl

/-- Exactly one of three things happens in a loop iteration: it continues with
the failure counter not decreased (it is bumped by one, or by two on the 429
`Retry-After` `ValueError` path), it returns `None` with the counter not
decreased, or it returns a non-CAPTCHA 200 response with the counter zeroed. -/
lemma attempt_step_cases (mr i ca now : Nat) (s : SessionState) (o : Outcome) :
    (∃ ca' s' evs, attempt_step mr i ca s o now = .next ca' s' evs ∧
       s.consecutive_failures ≤ s'.consecutive_failures) ∨
    (∃ s' evs, attempt_step mr i ca s o now = .done Option.none s' evs ∧
       s.consecutive_failures ≤ s'.consecutive_failures) ∨
    (∃ r s' evs, attempt_step mr i ca s o now = .done (some r) s' evs ∧
       r.status = 200 ∧ r.is_captcha = false ∧ s'.consecutive_failures = 0) := by
  cases o with
  | exn =>
      simp only [attempt_step]
      split_ifs with h1 h2
      · exact Or.inl ⟨_, _, _, rfl, by rw [ib_step_cf]; exact Nat.le_succ _⟩
      · exact Or.inl ⟨_, _, _, rfl, Nat.le_succ _⟩
      · exact Or.inr (Or.inl ⟨_, _, rfl, Nat.le_succ _⟩)
  | resp r =>
      simp only [attempt_step]
      by_cases hc : r.is_captcha
      · simp only [hc, if_true]
        split_ifs with h1
        · exact Or.inl ⟨_, _, _, rfl, Nat.le_succ _⟩
        · exact Or.inr (Or.inl ⟨_, _, rfl, Nat.le_succ _⟩)
      · simp only [hc, if_false, Bool.false_eq_true]
        by_cases h200 : r.status = 200
        · simp only [h200, if_true]
          exact Or.inr (Or.inr ⟨r, _, _, rfl, h200, Bool.eq_false_iff.mpr hc, rfl⟩)
        · simp only [h200, if_false]
          by_cases h503 : r.status = 503
          · simp only [h503, if_true]
            split_ifs with h1 h2
            · exact Or.inl ⟨_, _, _, rfl, by rw [ib_step_cf]; exact Nat.le_succ _⟩
            · exact Or.inl ⟨_, _, _, rfl, Nat.le_succ _⟩
            · exact Or.inl ⟨_, _, _, rfl, Nat.le_succ _⟩
          · simp only [h503, if_false]
            by_cases h429 : r.status = 429
            · simp only [h429, if_true]
              rcases hra : r.retry_after with _ | ra
              · simp only [hra]
                exact Or.inl ⟨_, _, _, rfl, Nat.le_succ _⟩
              · simp only [hra]
                by_cases hd : py_isdigit ra
                · simp only [hd, if_true]
                  rcases hp : py_int_parse ra with _ | n
                  · simp only [hp]
                    split_ifs with h1 h2
                    · exact Or.inl ⟨_, _, _, rfl, by
                        rw [ib_step_cf]
                        exact Nat.le_succ_of_le (Nat.le_succ _)⟩
                    · exact Or.inl ⟨_, _, _, rfl,
                        Nat.le_succ_of_le (Nat.le_succ _)⟩
                    · exact Or.inr (Or.inl ⟨_, _, rfl,
                        Nat.le_succ_of_le (Nat.le_succ _)⟩)
                  · simp only [hp]
                    exact Or.inl ⟨_, _, _, rfl, Nat.le_succ _⟩
                · simp only [hd, if_false, Bool.false_eq_true]
                  exact Or.inl ⟨_, _, _, rfl, Nat.le_succ _⟩
            · simp only [h429, if_false]
              by_cases h403 : r.status = 403
              · simp only [h403, if_true, hc, if_false, Bool.false_eq_true]
                split_ifs with h1 h2
                · exact Or.inl ⟨_, _, _, rfl, by rw [ib_step_cf]; exact Nat.le_succ _⟩
                · exact Or.inl ⟨_, _, _, rfl, Nat.le_succ _⟩
                · exact Or.inl ⟨_, _, _, rfl, Nat.le_succ _⟩
              · simp only [h403, if_false]
                by_cases h404 : r.status = 404
                · simp only [h404, if_true]
                  exact Or.inr (Or.inl ⟨_, _, rfl, Nat.le_refl _⟩)
                · simp only [h404, if_false]
                  split_ifs with h1
                  · exact Or.inl ⟨_, _, _, rfl, Nat.le_succ _⟩
                  · exact Or.inl ⟨_, _, _, rfl, Nat.le_succ _⟩

lemma make_request_go_result (url : String) (mr : Nat) (transport : Nat → Outcome)
    (now : Nat) :
    ∀ (fuel i ca : Nat) (s : SessionState) (tr : List Event),
      (make_request_go url mr transport now fuel i ca s tr).1 = Option.none ∨
      ∃ r, (make_request_go url mr transport now fuel i ca s tr).1 = some r ∧
        r.status = 200 ∧ r.is_captcha = false := by
  intro fuel
  induction fuel with
  | zero =>
      intro i ca s tr
      simp only [make_request_go]
      split_ifs <;> exact Or.inl rfl
  | succ fuel ih =>
      intro i ca s tr
      rcases attempt_step_cases mr i ca now s (transport i) with
        ⟨ca', s', evs, heq, _⟩ | ⟨s', evs, heq, _⟩ | ⟨r, s', evs, heq, h200, hcap, _⟩
      · simpa only [make_request_go, heq] using ih (i + 1) ca' s' (tr ++ evs)
      · exact Or.inl (by simp [make_request_go, heq])
      · exact Or.inr ⟨r, by simp [make_request_go, heq], h200, hcap⟩

lemma make_request_go_zero_cf (url : String) (mr : Nat) (transport : Nat → Outcome)
    (now i ca : Nat) (s : SessionState) (tr : List Event) :
    (make_request_go url mr transport now 0 i ca s tr).2.1.consecutive_failures =
      s.consecutive_failures + 1 := by
  simp only [make_request_go]
  split_ifs <;> simp [ib_step_cf]

lemma make_request_go_cf_mono (url : String) (mr : Nat) (transport : Nat → Outcome)
    (now : Nat) :
    ∀ (fuel i ca : Nat) (s : SessionState) (tr : List Event),
      (make_request_go url mr transport now fuel i ca s tr).1 = Option.none →
      s.consecutive_failures ≤
        (make_request_go url mr transport now fuel i ca s tr).2.1.consecutive_failures := by
  intro fuel
  induction fuel with
  | zero =>
      intro i ca s tr _
      rw [make_request_go_zero_cf]
      exact Nat.le_succ _
  | succ fuel ih =>
      intro i ca s tr hnone
      rcases attempt_step_cases mr i ca now s (transport i) with
        ⟨ca', s', evs, heq, hcf⟩ | ⟨s', evs, heq, hcf⟩ | ⟨r, s', evs, heq, _, _, _⟩
      · simp only [make_request_go, heq] at hnone ⊢
        exact le_trans hcf (ih (i + 1) ca' s' (tr ++ evs) hnone)
      · simpa only [make_request_go, heq] using hcf
      · simp [make_request_go, heq] at hnone

lemma uniform_mem (lo hi r : ℚ) (hlh : lo ≤ hi) (h0 : 0 ≤ r) (h1 : r ≤ 1) :
    lo ≤ uniform lo hi r ∧ uniform lo hi r ≤ hi := by
  unfold uniform
  constructor <;> nlinarith

lemma retry_after_sleep_not_mem_pre (m i : Nat) (lec : Option Nat) :
    Event.retry_after_sleep m ∉ pre_events i lec := by
  unfold pre_events
  split <;> simp

lemma retry_after_sleep_not_mem_ib (m cf : Nat) (s : SessionState) :
    Event.retry_after_sleep m ∉ (intelligent_backoff_step cf s).2 := by
  unfold intelligent_backoff_step
  split_ifs <;> simp

/-! ## Claims -/

/-- C1: for every URL, `max_retries` and `skip_warmup` flag, and every
behavior of the transport collaborator, `_make_request` either returns a
response whose status code is 200 (and which is not a CAPTCHA page) or
returns `None`; it is a total function with no exception channel — every
retryable failure (503, 429, 403, CAPTCHA, unexpected status, transport
exception) and the 404/exhaustion cases are absorbed into these two
outcomes. -/
theorem make_request_success_or_none (url : String) (mr : Nat) (sw : Bool)
    (s : SessionState) (transport : Nat → Outcome) (now : Nat) :
    (make_request url mr sw s transport now).1 = Option.none ∨
    ∃ r, (make_request url mr sw s transport now).1 = some r ∧
      r.status = 200 ∧ r.is_captcha = false :=
  make_request_go_result url mr transport now mr 0 0 s []

/-- C2: the consecutive-failure counter is set to exactly 0 on a non-CAPTCHA
HTTP 200 and is only ever incremented, by the retryable failure classes:
transport exception, CAPTCHA page (any status), and every non-CAPTCHA status
other than 200 and 404 — by exactly one each, except that a 429 whose
`Retry-After` header passes `isdigit()` but makes `int()` raise `ValueError`
is incremented twice (once in the 429 branch, once more in the exception
handler the `ValueError` falls into) — plus once more on final retry
exhaustion; a 404 never changes it; consequently over any run that ends
without a successful response the counter is monotonically non-decreasing. -/
theorem consecutive_failures_invariant :
    (∀ (mr i ca now : Nat) (s : SessionState) (ra : Option String)
        (ck : List (String × String)),
       step_cf (attempt_step mr i ca s (.resp ⟨200, false, ra, ck⟩) now) = 0) ∧
    (∀ (mr i ca now : Nat) (s : SessionState),
       step_cf (attempt_step mr i ca s .exn now) = s.consecutive_failures + 1) ∧
    (∀ (mr i ca now st : Nat) (s : SessionState) (ra : Option String)
        (ck : List (String × String)),
       step_cf (attempt_step mr i ca s (.resp ⟨st, true, ra, ck⟩) now) =
         s.consecutive_failures + 1) ∧
    (∀ (mr i ca now st : Nat) (s : SessionState) (ra : Option String)
        (ck : List (String × String)), st ≠ 200 → st ≠ 404 → st ≠ 429 →
       step_cf (attempt_step mr i ca s (.resp ⟨st, false, ra, ck⟩) now) =
         s.consecutive_failures + 1) ∧
    (∀ (mr i ca now : Nat) (s : SessionState) (rah : Option String)
        (ck : List (String × String)),
       step_cf (attempt_step mr i ca s (.resp ⟨429, false, rah, ck⟩) now) =
         s.consecutive_failures +
           (if retry_after_value_error rah then 2 else 1)) ∧
    (∀ (mr i ca now : Nat) (s : SessionState) (ra : Option String)
        (ck : List (String × String)),
       step_cf (attempt_step mr i ca s (.resp ⟨404, false, ra, ck⟩) now) =
         s.consecutive_failures) ∧
    (∀ (url : String) (mr : Nat) (transport : Nat → Outcome) (now i ca : Nat)
        (s : SessionState) (tr : List Event),
       (make_request_go url mr transport now 0 i ca s tr).2.1.consecutive_failures =
         s.consecutive_failures + 1) ∧
    (∀ (url : String) (mr : Nat) (sw : Bool) (s : SessionState)
        (transport : Nat → Outcome) (now : Nat),
       (make_request url mr sw s transport now).1 = Option.none →
       s.consecutive_failures ≤
         (make_request url mr sw s transport now).2.1.consecutive_failures) := by
  refine ⟨?_, ?_, ?_, ?_, ?_, ?_, ?_, ?_⟩
  · intro mr i ca now s ra ck; rfl
  · intro mr i ca now s
    simp only [attempt_step]
    split_ifs <;> simp [step_cf, step_state, ib_step_cf]
  · intro mr i ca now st s ra ck
    simp only [attempt_step]
    split_ifs <;> simp [step_cf, step_state]
  · intro mr i ca now st s ra ck h200 h404 h429
    simp only [attempt_step]
    simp only [h200, h404, h429, if_false]
    split_ifs <;> simp [step_cf, step_state, ib_step_cf]
  · intro mr i ca now s rah ck
    cases rah with
    | none => simp [attempt_step, retry_after_value_error, step_cf, step_state]
    | some ra =>
        by_cases hd : py_isdigit ra
        · rcases hp : py_int_parse ra with _ | n
          · simp only [attempt_step, hd, hp, if_true]
            split_ifs <;>
              simp_all [step_cf, step_state, ib_step_cf, retry_after_value_error]
          · simp [attempt_step, hd, hp, retry_after_value_error, step_cf,
              step_state]
        · simp [attempt_step, hd, retry_after_value_error, step_cf, step_state]
  · intro mr i ca now s ra ck; rfl
  · intro url mr transport now i ca s tr
    exact make_request_go_zero_cf url mr transport now i ca s tr
  · intro url mr sw s transport now h
    exact make_request_go_cf_mono url mr transport now mr 0 0 s [] h

/-- Witness for C2 at concrete inputs: a fresh session, attempt 0 of 3,
429 responses with headers `"12"` (parseable), `"²"` (isdigit-true but
`int()` raises) and absent, and for the run-level parts a single-retry
fetch against an always-503 transport. -/
theorem consecutive_failures_invariant_witness :
    step_cf (attempt_step 3 0 0 fresh_state (.resp ⟨200, false, Option.none, []⟩) 0) = 0 ∧
    step_cf (attempt_step 3 0 0 fresh_state .exn 0) =
      fresh_state.consecutive_failures + 1 ∧
    step_cf (attempt_step 3 0 0 fresh_state (.resp ⟨403, true, Option.none, []⟩) 0) =
      fresh_state.consecutive_failures + 1 ∧
    step_cf (attempt_step 3 0 0 fresh_state (.resp ⟨777, false, Option.none, []⟩) 0) =
      fresh_state.consecutive_failures + 1 ∧
    step_cf (attempt_step 3 0 0 fresh_state (.resp ⟨429, false, some "12", []⟩) 0) =
      fresh_state.consecutive_failures +
        (if retry_after_value_error (some "12") then 2 else 1) ∧
    step_cf (attempt_step 3 0 0 fresh_state (.resp ⟨429, false, some "²", []⟩) 0) =
      fresh_state.consecutive_failures +
        (if retry_after_value_error (some "²") then 2 else 1) ∧
    step_cf (attempt_step 3 0 0 fresh_state (.resp ⟨404, false, Option.none, []⟩) 0) =
      fresh_state.consecutive_failures ∧
    (make_request_go "u" 3 transport_always_503 0 0 3 0 fresh_state
        []).2.1.consecutive_failures = fresh_state.consecutive_failures + 1 ∧
    fresh_state.consecutive_failures ≤
      (make_request "u" 1 false fresh_state transport_always_503
          0).2.1.consecutive_failures :=
  ⟨consecutive_failures_invariant.1 3 0 0 0 fresh_state Option.none [],
   consecutive_failures_invariant.2.1 3 0 0 0 fresh_state,
   consecutive_failures_invariant.2.2.1 3 0 0 0 403 fresh_state Option.none [],
   consecutive_failures_invariant.2.2.2.1 3 0 0 0 777 fresh_state Option.none []
     (by decide) (by decide) (by decide),
   consecutive_failures_invariant.2.2.2.2.1 3 0 0 0 fresh_state (some "12") [],
   consecutive_failures_invariant.2.2.2.2.1 3 0 0 0 fresh_state (some "²") [],
   consecutive_failures_invariant.2.2.2.2.2.1 3 0 0 0 fresh_state Option.none [],
   consecutive_failures_invariant.2.2.2.2.2.2.1 "u" 3 transport_always_503 0 3 0
     fresh_state [],
   consecutive_failures_invariant.2.2.2.2.2.2.2 "u" 1 false fresh_state
     transport_always_503 0 rfl⟩

/-- C3: `_intelligent_backoff` triggers a session reset exactly when the
failure count is 3 (the first crossing of the 3-5 tier) or above 5 — never
for counts of at most 2 or equal to 4 or 5 — and the slept delay lies in
[5, 15] s, [30, 90] s and [300, 600] s for the three tiers respectively. -/
theorem intelligent_backoff_policy (cf : Nat) (r : ℚ) (s : SessionState)
    (h0 : 0 ≤ r) (h1 : r ≤ 1) :
    ((intelligent_backoff_value cf r).2 = true ↔ (cf = 3 ∨ 5 < cf)) ∧
    (Event.session_reset ∈ (intelligent_backoff_step cf s).2 ↔ (cf = 3 ∨ 5 < cf)) ∧
    (cf ≤ 2 → 5 ≤ (intelligent_backoff_value cf r).1 ∧
       (intelligent_backoff_value cf r).1 ≤ 15) ∧
    (3 ≤ cf → cf ≤ 5 → 30 ≤ (intelligent_backoff_value cf r).1 ∧
       (intelligent_backoff_value cf r).1 ≤ 90) ∧
    (5 < cf → 300 ≤ (intelligent_backoff_value cf r).1 ∧
       (intelligent_backoff_value cf r).1 ≤ 600) := by
  have h515 := uniform_mem 5 15 r (by norm_num) h0 h1
  have h3090 := uniform_mem 30 90 r (by norm_num) h0 h1
  have h3060 := uniform_mem 300 600 r (by norm_num) h0 h1
  unfold intelligent_backoff_value intelligent_backoff_step
  split_ifs with h2 h5 h3
  · refine ⟨by simp; omega, by simp; omega, fun _ => h515, fun h _ => ?_, fun h => ?_⟩
    · exact absurd h (by omega)
    · exact absurd h (by omega)
  · refine ⟨by simp [h3], by simp [h3], fun h => ?_, fun _ _ => h3090, fun h => ?_⟩
    · exact absurd h (by omega)
    · exact absurd h (by omega)
  · refine ⟨by simp [beq_iff_eq]; omega, by simp; omega, fun h => ?_,
      fun _ _ => h3090, fun h => ?_⟩
    · exact absurd h (by omega)
    · exact absurd h (by omega)
  · refine ⟨by simp; omega, by simp; omega, fun h => ?_, fun h h' => ?_,
      fun _ => h3060⟩
    · exact absurd h (by omega)
    · exact absurd h' (by omega)

/-- Witness for C3 at the interesting tier boundary: failure count 3 with
draw 1/2. -/
theorem intelligent_backoff_policy_witness :
    ((intelligent_backoff_value 3 (1/2)).2 = true ↔ ((3 : Nat) = 3 ∨ 5 < 3)) ∧
    (Event.session_reset ∈ (intelligent_backoff_step 3 fresh_state).2 ↔
       ((3 : Nat) = 3 ∨ 5 < 3)) ∧
    ((3 : Nat) ≤ 2 → 5 ≤ (intelligent_backoff_value 3 (1/2)).1 ∧
       (intelligent_backoff_value 3 (1/2)).1 ≤ 15) ∧
    ((3 : Nat) ≤ 3 → (3 : Nat) ≤ 5 → 30 ≤ (intelligent_backoff_value 3 (1/2)).1 ∧
       (intelligent_backoff_value 3 (1/2)).1 ≤ 90) ∧
    ((5 : Nat) < 3 → 300 ≤ (intelligent_backoff_value 3 (1/2)).1 ∧
       (intelligent_backoff_value 3 (1/2)).1 ≤ 600) :=
  intelligent_backoff_policy 3 (1/2) fresh_state (by norm_num) (by norm_num)

/-- C4: for every error code and attempt index, the `_adaptive_delay_strategy`
delay (with the jitter draw held fixed) is monotonically non-decreasing in the
attempt index before the cap, and the capped delay never exceeds 600 s; the
embedding takes exactly `(attempt, error_code)` and the RNG draw as inputs,
reflecting that the source reads no other state. -/
theorem adaptive_delay_monotone_capped (attempt : Nat) (error_code : Option Nat)
    (r : ℚ) :
    adaptive_delay_raw attempt error_code r ≤
      adaptive_delay_raw (attempt + 1) error_code r ∧
    adaptive_delay_value attempt error_code r ≤ 600 := by
  refine ⟨?_, min_le_right _ _⟩
  have m3 : (3 : ℚ) ^ attempt ≤ 3 ^ (attempt + 1) :=
    pow_le_pow_right₀ (by norm_num) (Nat.le_succ _)
  have m2 : (2 : ℚ) ^ attempt ≤ 2 ^ (attempt + 1) :=
    pow_le_pow_right₀ (by norm_num) (Nat.le_succ _)
  have m4 : (4 : ℚ) ^ attempt ≤ 4 ^ (attempt + 1) :=
    pow_le_pow_right₀ (by norm_num) (Nat.le_succ _)
  unfold adaptive_delay_raw
  split_ifs <;> simp only [] <;> linarith

/-- C5: a non-CAPTCHA 404 response makes any attempt of `_make_request`
return `None` at once: the loop iteration ends in `done` (no further
attempts), the only events are the pre-attempt delays (no backoff delay is
computed for the 404), and the failure counter is untouched — only
`_last_error_code` becomes 404.  The second conjunct runs the whole fetch,
for every `max_retries ≥ 1`, against a transport that answers 404. -/
theorem notfound_terminates_immediately (mr i ca now : Nat) (s : SessionState)
    (ra : Option String) (ck : List (String × String)) (url : String)
    (mr' : Nat) (sw : Bool) :
    attempt_step mr i ca s (.resp ⟨404, false, ra, ck⟩) now =
      .done Option.none { s with last_error_code := some 404 }
        (pre_events i s.last_error_code) ∧
    make_request url (mr' + 1) sw s (fun _ => .resp ⟨404, false, ra, ck⟩) now =
      (Option.none, { s with last_error_code := some 404 },
        pre_events 0 s.last_error_code) :=
  ⟨rfl, rfl⟩

/-- C6 counterexample: the header `"²"` (U+00B2, superscript two) passes
Python's `isdigit()` — so per the claim the wait should be the numeric value
plus buffer, and it is also not routed as "not a plain digit string" — yet
`int("²")` raises `ValueError`, and the attempt neither sleeps a
`Retry-After` wait nor applies the 429 adaptive-delay formula: it falls into
the exception handler, sleeps the error-code-`None` formula and increments
the failure counter twice. -/
theorem retry_after_superscript_counterexample :
    py_isdigit "²" = true ∧
    py_int_parse "²" = Option.none ∧
    attempt_step 3 0 0 fresh_state (.resp ⟨429, false, some "²", []⟩) 0 =
      .next 0 ⟨[], some 429, 2, Option.none, false⟩
        [Event.human_delay 0, Event.adaptive_delay 0 Option.none] ∧
    (∀ m, Event.retry_after_sleep m ∉
       step_events (attempt_step 3 0 0 fresh_state
         (.resp ⟨429, false, some "²", []⟩) 0)) ∧
    Event.adaptive_delay 0 (some 429) ∉
      step_events (attempt_step 3 0 0 fresh_state
        (.resp ⟨429, false, some "²", []⟩) 0) ∧
    step_cf (attempt_step 3 0 0 fresh_state (.resp ⟨429, false, some "²", []⟩) 0) ≠
      fresh_state.consecutive_failures + 1 := by
  have heq : attempt_step 3 0 0 fresh_state
      (Outcome.resp ⟨429, false, some "²", []⟩) 0 =
      .next 0 ⟨[], some 429, 2, Option.none, false⟩
        [Event.human_delay 0, Event.adaptive_delay 0 Option.none] := by decide
  refine ⟨by decide, by decide, heq, ?_, ?_, ?_⟩
  · intro m
    rw [heq]
    simp [step_events]
  · rw [heq]
    simp [step_events]
  · rw [heq]
    decide

/-- C6 amended: a 429 response is handled three ways.  A `Retry-After`
header that `isdigit()` accepts and `int()` parses is honored: the wait is
the parsed value plus a uniform [5, 15] s buffer and the adaptive formula is
bypassed, with one failure increment.  A header that is absent or fails
`isdigit()` uses the 429 adaptive-delay formula, with one increment.  A
header of digit characters that `int()` cannot parse (e.g. `"²"`) raises
`ValueError` inside the branch: the exception handler increments the counter
a second time, no `Retry-After` wait occurs, and when attempts remain the
error-code-`None` adaptive formula is slept (else the fetch returns `None`
at once). -/
theorem retry_after_three_way (mr i ca now : Nat) (s : SessionState)
    (ra : String) (ck : List (String × String)) (r : ℚ) (n : Nat)
    (h0 : 0 ≤ r) (h1 : r ≤ 1) :
    (py_isdigit ra = true → py_int_parse ra = some n →
       attempt_step mr i ca s (.resp ⟨429, false, some ra, ck⟩) now =
         .next ca
           { s with last_error_code := some 429,
                    consecutive_failures := s.consecutive_failures + 1 }
           (pre_events i s.last_error_code ++ [Event.retry_after_sleep n]) ∧
       ((n : ℚ) + 5 ≤ retry_after_delay n r ∧
          retry_after_delay n r ≤ (n : ℚ) + 15)) ∧
    (∀ rah : Option String, (∀ t, rah = some t → py_isdigit t = false) →
       attempt_step mr i ca s (.resp ⟨429, false, rah, ck⟩) now =
         .next ca
           { s with last_error_code := some 429,
                    consecutive_failures := s.consecutive_failures + 1 }
           (pre_events i s.last_error_code ++
             [Event.adaptive_delay i (some 429)])) ∧
    (py_isdigit ra = true → py_int_parse ra = Option.none →
       step_cf (attempt_step mr i ca s (.resp ⟨429, false, some ra, ck⟩) now) =
         s.consecutive_failures + 2 ∧
       (∀ m, Event.retry_after_sleep m ∉
          step_events (attempt_step mr i ca s
            (.resp ⟨429, false, some ra, ck⟩) now))) ∧
    (py_isdigit ra = true → py_int_parse ra = Option.none → i < mr - 1 →
       s.consecutive_failures = 0 →
       attempt_step mr i ca s (.resp ⟨429, false, some ra, ck⟩) now =
         .next ca
           { s with last_error_code := some 429,
                    consecutive_failures := s.consecutive_failures + 2 }
           (pre_events i s.last_error_code ++
             [Event.adaptive_delay i Option.none])) ∧
    (py_isdigit ra = true → py_int_parse ra = Option.none → ¬ i < mr - 1 →
       attempt_step mr i ca s (.resp ⟨429, false, some ra, ck⟩) now =
         .done Option.none
           { s with last_error_code := some 429,
                    consecutive_failures := s.consecutive_failures + 2 }
           (pre_events i s.last_error_code)) := by
  have hb := uniform_mem 5 15 r (by norm_num) h0 h1
  refine ⟨?_, ?_, ?_, ?_, ?_⟩
  · intro hd hp
    constructor
    · simp [attempt_step, hd, hp]
    · unfold retry_after_delay
      constructor <;> linarith [hb.1, hb.2]
  · intro rah h
    cases rah with
    | none => simp [attempt_step]
    | some t => simp [attempt_step, h t rfl]
  · intro hd hp
    constructor
    · simp only [attempt_step, hd, hp, if_true]
      split_ifs <;> simp_all [step_cf, step_state, ib_step_cf]
    · intro m
      simp only [attempt_step, hd, hp, if_true]
      split_ifs <;>
        simp_all [step_events, retry_after_sleep_not_mem_pre,
          retry_after_sleep_not_mem_ib]
  · intro hd hp hlt hz
    simp [attempt_step, hd, hp, hlt, hz]
  · intro hd hp hlast
    simp [attempt_step, hd, hp, hlast]

/-- Witness for the amended C6 at concrete inputs: attempt 0 of 3 on a fresh
session, with headers `"12"` (honored verbatim plus buffer, draw 0), absent
(429 formula), and `"²"` (the `ValueError` path: double increment, no
`Retry-After` sleep, error-code-`None` formula). -/
theorem retry_after_three_way_witness :
    (attempt_step 3 0 0 fresh_state (.resp ⟨429, false, some "12", []⟩) 0 =
       .next 0 ⟨[], some 429, 1, Option.none, false⟩
         [Event.human_delay 0, Event.retry_after_sleep 12] ∧
     ((12 : ℚ) + 5 ≤ retry_after_delay 12 0 ∧
        retry_after_delay 12 0 ≤ (12 : ℚ) + 15)) ∧
    (attempt_step 3 0 0 fresh_state (.resp ⟨429, false, Option.none, []⟩) 0 =
       .next 0 ⟨[], some 429, 1, Option.none, false⟩
         [Event.human_delay 0, Event.adaptive_delay 0 (some 429)]) ∧
    (step_cf (attempt_step 3 0 0 fresh_state (.resp ⟨429, false, some "²", []⟩) 0) =
       fresh_state.consecutive_failures + 2) ∧
    (attempt_step 3 0 0 fresh_state (.resp ⟨429, false, some "²", []⟩) 0 =
       .next 0 ⟨[], some 429, 2, Option.none, false⟩
         [Event.human_delay 0, Event.adaptive_delay 0 Option.none]) :=
  ⟨(retry_after_three_way 3 0 0 0 fresh_state "12" [] 0 12 (by norm_num)
      (by norm_num)).1 (by decide) (by decide),
   (retry_after_three_way 3 0 0 0 fresh_state "12" [] 0 12 (by norm_num)
      (by norm_num)).2.1 Option.none (by simp),
   ((retry_after_three_way 3 0 0 0 fresh_state "²" [] 0 0 (by norm_num)
      (by norm_num)).2.2.1 (by decide) (by decide)).1,
   (retry_after_three_way 3 0 0 0 fresh_state "²" [] 0 0 (by norm_num)
      (by norm_num)).2.2.2.1 (by decide) (by decide) (by decide) rfl⟩

/-- C7 counterexample: the claim says `_reset_session_strategy` zeroes the
counters including `consecutive_failures`; on a session with three
accumulated failures the counter is still 3 after the reset. -/
theorem reset_keeps_failures_counterexample :
    (reset_session_strategy degraded_state).consecutive_failures = 3 ∧
    (3 : Nat) ≠ 0 := by
  decide

/-- C7 amended: after every `_reset_session_strategy` call the cookie store
is empty, `_last_error_code` is `None`, and the transport client has been
closed; the recreate step `_setup_http_client` is a no-op stub, so no new
client is produced; warm-up is not re-entered (the function performs no
warm-up action); and `consecutive_failures` keeps its prior value — it is
not zeroed. -/
theorem reset_session_strategy_effect (s : SessionState) :
    reset_session_strategy s =
      { s with session_cookies := [], last_error_code := Option.none,
               client_closed := true } ∧
    (reset_session_strategy s).consecutive_failures = s.consecutive_failures ∧
    (∀ t : SessionState, setup_http_client t = t) :=
  ⟨rfl, rfl, fun _ => rfl⟩

/-- C8 counterexample: on the spec scenario (`max_retries = 3`, attempts
answer 503, 503, 200, starting from zero failures) the fetch does return the
200 response and ends with the counter at 0, but the number of backoff
delays computed with the 503 formula is 4, not 2: the failure handler sleeps
once after each 503 and the top of each retry attempt sleeps again with
`_last_error_code = 503`. -/
theorem scenario_503_503_200_counterexample :
    (make_request "url" 3 false fresh_state transport_503_503_200 0).1 =
      some resp200 ∧
    (make_request "url" 3 false fresh_state transport_503_503_200
        0).2.1.consecutive_failures = 0 ∧
    count_503_delays
      (make_request "url" 3 false fresh_state transport_503_503_200 0).2.2 = 4 ∧
    count_503_delays
      (make_request "url" 3 false fresh_state transport_503_503_200 0).2.2 ≠ 2 := by
  decide

/-- C8 amended: for every URL, clock and initial session whose failure
counter is zero, the 503,503,200 fetch with `max_retries = 3` returns the
200 response, applies exactly four 503-formula backoff delays (one after
each 503 and one at the start of each of the two retry attempts), and ends
with `consecutive_failures = 0`. -/
theorem scenario_503_503_200_run (url : String) (now : Nat)
    (ck : List (String × String)) (lec : Option Nat) (lst : Option Nat)
    (cb : Bool) :
    (make_request url 3 false (SessionState.mk ck lec 0 lst cb)
        transport_503_503_200 now).1 = some resp200 ∧
    (make_request url 3 false (SessionState.mk ck lec 0 lst cb)
        transport_503_503_200 now).2.1.consecutive_failures = 0 ∧
    count_503_delays
      (make_request url 3 false (SessionState.mk ck lec 0 lst cb)
          transport_503_503_200 now).2.2 = 4 :=
  ⟨rfl, rfl, rfl⟩

/-- C10: the `skip_warmup` parameter is never read by the body of
`_make_request`: two calls that differ only in that flag — same URL, retry
budget, session state, transport behavior and clock — return identical
results, final states and action traces.  (Warm-up recursion avoidance lives
in `search_books`, which guards `_warm_up_session` behind the
`_session_warmed` attribute.) -/
theorem skip_warmup_never_read (url : String) (mr : Nat) (s : SessionState)
    (transport : Nat → Outcome) (now : Nat) (a b : Bool) :
    make_request url mr a s transport now = make_request url mr b s transport now :=
  rfl

/-! ## Lemmas about the book-data dict shape -/

lemma assoc_find_set_self {α : Type} (d : List (String × α)) (k : String) (v : α) :
    assoc_find (assoc_set d k v) k = some v := by
  induction d with
  | nil => simp [assoc_set, assoc_find]
  | cons kv rest ih =>
      obtain ⟨k', v'⟩ := kv
      by_cases h : k' = k
      · simp [assoc_set, assoc_find, h]
      · simp [assoc_set, assoc_find, h, ih]

lemma assoc_find_set_ne {α : Type} (d : List (String × α)) (k k' : String) (v : α)
    (h : k ≠ k') : assoc_find (assoc_set d k v) k' = assoc_find d k' := by
  induction d with
  | nil => simp [assoc_set, assoc_find, h]
  | cons kv rest ih =>
      obtain ⟨k0, v0⟩ := kv
      by_cases h0 : k0 = k
      · subst h0; simp [assoc_set, assoc_find, h]
      · simp [assoc_set, assoc_find, h0, ih]

lemma assoc_find_ne_nil {α : Type} (d : List (String × α)) (k : String) (v : α)
    (h : assoc_find d k = some v) : d ≠ [] := by
  intro hnil
  subst hnil
  simp [assoc_find] at h

lemma book_shape_assoc_set (d : List (String × PyVal)) (k : String) (v : PyVal)
    (hr : k ≠ "rating") (hp : k ≠ "price") (h : book_shape d) :
    book_shape (assoc_set d k v) := by
  obtain ⟨⟨sv, cv, h1⟩, pv, pc, h2⟩ := h
  exact ⟨⟨sv, cv, by rw [assoc_find_set_ne d k _ v hr, h1]⟩,
         ⟨pv, pc, by rw [assoc_find_set_ne d k _ v hp, h2]⟩⟩

lemma book_shape_py_set2_ne (d : List (String × PyVal)) (k1 k2 : String)
    (v : PyVal) (hr : k1 ≠ "rating") (hp : k1 ≠ "price") (h : book_shape d) :
    book_shape (py_set2 d k1 k2 v) := by
  unfold py_set2
  split
  · exact book_shape_assoc_set d k1 _ hr hp h
  · exact h

lemma book_shape_py_set2_rating (d : List (String × PyVal)) (k2 : String)
    (v : PyVal) (hk : k2 = "stars" ∨ k2 = "count") (h : book_shape d) :
    book_shape (py_set2 d "rating" k2 v) := by
  obtain ⟨⟨sv, cv, h1⟩, pv, pc, h2⟩ := h
  unfold py_set2
  rw [h1]
  refine ⟨?_, ⟨pv, pc, by rw [assoc_find_set_ne _ _ _ _ (by decide), h2]⟩⟩
  rcases hk with hk | hk <;> subst hk
  · exact ⟨v, cv, by rw [assoc_find_set_self]; rfl⟩
  · exact ⟨sv, v, by rw [assoc_find_set_self]; rfl⟩

lemma book_shape_py_set2_price (d : List (String × PyVal)) (k2 : String)
    (v : PyVal) (hk : k2 = "value" ∨ k2 = "currency") (h : book_shape d) :
    book_shape (py_set2 d "price" k2 v) := by
  obtain ⟨⟨sv, cv, h1⟩, pv, pc, h2⟩ := h
  unfold py_set2
  rw [h2]
  refine ⟨⟨sv, cv, by rw [assoc_find_set_ne _ _ _ _ (by decide), h1]⟩, ?_⟩
  rcases hk with hk | hk <;> subst hk
  · exact ⟨v, pc, by rw [assoc_find_set_self]; rfl⟩
  · exact ⟨pv, v, by rw [assoc_find_set_self]; rfl⟩

lemma book_shape_py_list_append (d : List (String × PyVal)) (k : String)
    (v : PyVal) (hr : k ≠ "rating") (hp : k ≠ "price") (h : book_shape d) :
    book_shape (py_list_append d k v) := by
  unfold py_list_append
  split
  · exact book_shape_assoc_set d k _ hr hp h
  · exact h

lemma book_shape_py_list_append2 (d : List (String × PyVal)) (k1 k2 : String)
    (v : PyVal) (hr : k1 ≠ "rating") (hp : k1 ≠ "price") (h : book_shape d) :
    book_shape (py_list_append2 d k1 k2 v) := by
  unfold py_list_append2
  split
  · split
    · exact book_shape_assoc_set d k1 _ hr hp h
    · exact h
  · exact h

lemma book_shape_foldl {β : Type}
    (step : List (String × PyVal) → β → List (String × PyVal))
    (hstep : ∀ d b, book_shape d → book_shape (step d b)) :
    ∀ (l : List β) (d : List (String × PyVal)), book_shape d →
      book_shape (l.foldl step d) := by
  intro l
  induction l with
  | nil => intro d h; exact h
  | cons x xs ih => intro d h; exact ih _ (hstep d x h)

lemma book_shape_base (f : ScrapeFields) : book_shape (scrape_book_base f) :=
  ⟨⟨PyVal.none, PyVal.none, rfl⟩, ⟨PyVal.none, PyVal.none, rfl⟩⟩

lemma book_shape_enhanced (e : EnhancedFields) (d : List (String × PyVal))
    (h : book_shape d) : book_shape (extract_enhanced_details e d) := by
  unfold extract_enhanced_details
  have h1 : book_shape (enhanced_breadcrumbs d) := by
    unfold enhanced_breadcrumbs
    split
    · exact book_shape_assoc_set d _ _ (by decide) (by decide) h
    · exact h
  have h2 : book_shape (enhanced_features e.features (enhanced_breadcrumbs d)) := by
    unfold enhanced_features
    refine book_shape_foldl _ ?_ _ _ h1
    intro d' ft hd'
    split
    · exact book_shape_py_list_append d' _ _ (by decide) (by decide) hd'
    · exact hd'
  have h3 : book_shape (enhanced_thumbnails e.thumbnails
      (enhanced_features e.features (enhanced_breadcrumbs d))) := by
    unfold enhanced_thumbnails
    refine book_shape_foldl _ ?_ _ _ h2
    intro d' src? hd'
    cases src? with
    | none => exact hd'
    | some src =>
        simp only []
        split
        · exact book_shape_py_list_append2 d' _ _ _ (by decide) (by decide) hd'
        · exact hd'
  have h4 : book_shape (enhanced_availability e.availability_text
      (enhanced_thumbnails e.thumbnails
        (enhanced_features e.features (enhanced_breadcrumbs d)))) := by
    unfold enhanced_availability
    cases e.availability_text with
    | none => exact h3
    | some txt =>
        exact book_shape_py_set2_ne _ _ _ _ (by decide) (by decide)
          (book_shape_py_set2_ne _ _ _ _ (by decide) (by decide) h3)
  have h5 : book_shape (enhanced_seller e.seller
      (enhanced_availability e.availability_text
        (enhanced_thumbnails e.thumbnails
          (enhanced_features e.features (enhanced_breadcrumbs d))))) := by
    unfold enhanced_seller
    cases e.seller with
    | none => exact h4
    | some x =>
        obtain ⟨nm, id?⟩ := x
        cases id? with
        | none => exact book_shape_py_set2_ne _ _ _ _ (by decide) (by decide) h4
        | some sid =>
            exact book_shape_py_set2_ne _ _ _ _ (by decide) (by decide)
              (book_shape_py_set2_ne _ _ _ _ (by decide) (by decide) h4)
  have h6 : book_shape (enhanced_publisher e.publisher
      (enhanced_seller e.seller
        (enhanced_availability e.availability_text
          (enhanced_thumbnails e.thumbnails
            (enhanced_features e.features (enhanced_breadcrumbs d)))))) := by
    unfold enhanced_publisher
    cases e.publisher with
    | none => exact h5
    | some p => exact book_shape_py_set2_ne _ _ _ _ (by decide) (by decide) h5
  unfold enhanced_dimensions
  cases e.dimensions with
  | none => exact h6
  | some dim => exact book_shape_py_set2_ne _ _ _ _ (by decide) (by decide) h6

lemma book_shape_scrape (config : List (String × PyVal)) (f : ScrapeFields)
    (e : EnhancedFields) : book_shape (scrape_book_details_data config f e) := by
  unfold scrape_book_details_data
  have h1 : book_shape (scrape_price_update f.old_price (scrape_book_base f)) := by
    unfold scrape_price_update
    split
    · exact book_shape_py_set2_price _ _ _ (Or.inr rfl)
        (book_shape_py_set2_price _ _ _ (Or.inl rfl) (book_shape_base f))
    · exact book_shape_base f
  have h2 : book_shape (scrape_rating_update f.old_rating
      (scrape_price_update f.old_price (scrape_book_base f))) := by
    unfold scrape_rating_update
    split
    · exact book_shape_py_set2_rating _ _ _ (Or.inl rfl) h1
    · exact h1
  have h3 : book_shape (scrape_count_update f.old_review_count
      (scrape_rating_update f.old_rating
        (scrape_price_update f.old_price (scrape_book_base f)))) := by
    unfold scrape_count_update
    split
    · exact book_shape_py_set2_rating _ _ _ (Or.inr rfl) h2
    · exact h2
  have h4 := book_shape_enhanced e _ h3
  unfold scrape_reviews_update
  split
  · exact book_shape_assoc_set _ _ _ (by decide) (by decide) h4
  · exact h4

lemma py_lt_dict (es : List (String × PyVal)) (w : PyVal) :
    py_lt (.dict es) w = .error .typeError := by
  cases w <;> rfl

lemma meets_criteria_dict_rating (config bd : List (String × PyVal))
    (es : List (String × PyVal)) (h : assoc_find bd "rating" = some (.dict es))
    (hne : es ≠ []) : meets_criteria config bd = .error .typeError := by
  have ht : truthy (.dict es) = true := by
    cases es with
    | nil => exact absurd rfl hne
    | cons x xs => rfl
  unfold meets_criteria
  simp [py_get, h, ht, py_lt_dict, Bind.bind, Except.bind]

lemma collect_books_error (config bd : List (String × PyVal))
    (herr : meets_criteria config bd = .error .typeError) (hne : bd ≠ []) :
    ∀ (k : Nat) (rest : List (Option (List (String × PyVal)))),
      collect_books config (List.replicate k Option.none ++ some bd :: rest) =
        .error .typeError := by
  have ht : truthy (.dict bd) = true := by
    cases bd with
    | nil => exact absurd rfl hne
    | cons x xs => rfl
  intro k
  induction k with
  | zero =>
      intro rest
      simp [collect_books, ht, herr, Bind.bind, Except.bind]
  | succ k ih =>
      intro rest
      simpa [List.replicate_succ, collect_books] using ih rest

/-- C9: every dict `_scrape_book_details` can return has `rating` and
`price` bound to non-empty two-entry dicts, so `_meets_criteria` passes the
truthiness guard, compares a dict against `minRating` and raises
`TypeError` — for every configuration; consequently the `search_books`
filtering loop never appends a book: as soon as it reaches a scraped result
the whole call aborts with the `TypeError`. -/
theorem meets_criteria_always_raises (config : List (String × PyVal))
    (f : ScrapeFields) (e : EnhancedFields) :
    (∃ sv cv, assoc_find (scrape_book_details_data config f e) "rating" =
        some (PyVal.dict [("stars", sv), ("count", cv)])) ∧
    (∃ pv pc, assoc_find (scrape_book_details_data config f e) "price" =
        some (PyVal.dict [("value", pv), ("currency", pc)])) ∧
    meets_criteria config (scrape_book_details_data config f e) =
      .error .typeError ∧
    (∀ (k : Nat) (rest : List (Option (List (String × PyVal)))),
       collect_books config
           (List.replicate k Option.none ++
             some (scrape_book_details_data config f e) :: rest) =
         .error .typeError) := by
  obtain ⟨⟨sv, cv, h1⟩, pv, pc, h2⟩ := book_shape_scrape config f e
  have herr : meets_criteria config (scrape_book_details_data config f e) =
      .error .typeError :=
    meets_criteria_dict_rating _ _ _ h1 (by simp)
  exact ⟨⟨sv, cv, h1⟩, ⟨pv, pc, h2⟩, herr,
    collect_books_error _ _ herr (assoc_find_ne_nil _ _ _ h1)⟩

end KDP
